import Mathlib

/-!
Verification development for the PDF/photo text editor (`app.py`).

The development shallowly embeds the text-block extraction, OCR filtering,
hit-testing, position-preserving edit-replacement and the undo/redo history
of the source.  Pure coordinate arithmetic uses `ℚ` (Python floats carry
exact decimal literals in every code path modelled here), pixel coordinates
use `Int`, and the external engines (PyMuPDF, Tesseract, PIL) are modelled
by explicit data passed to the embedded functions, following the interface
contracts the source relies on.
-/

namespace PdfEditor

/-- Whitespace test matching Python's `str.strip` default character class. -/
def isPySpace (c : Char) : Bool :=
  c == ' ' || c == '\t' || c == '\n' || c == '\r' || c == '\x0b' || c == '\x0c'

/-- Model of Python's `str.strip()`: drop leading and trailing whitespace. -/
def pyStrip (s : String) : String :=
  ((s.data.dropWhile isPySpace).reverse.dropWhile isPySpace).reverse.asString

/-- Font data attached to a text block, as collected in
`PDFCanvas.extract_text_blocks` (`font_info` dict). -/
structure FontInfo where
  font : String
  size : ℚ
  flags : Int
  color : Int
deriving Repr, DecidableEq

/-- One extracted text block (`text_blocks` list entries in `PDFCanvas`). -/
structure TextBlock where
  text : String
  x : ℚ
  y : ℚ
  width : ℚ
  height : ℚ
  font_info : FontInfo
deriving Repr, DecidableEq

/-- One span of the structured text dictionary returned by the PDF engine
(`page.get_text("dict")`): text, bounding box `(x0, y0, x1, y1)`, font
family, size, flags and color. -/
structure SpanIn where
  text : String
  x0 : ℚ
  y0 : ℚ
  x1 : ℚ
  y1 : ℚ
  font : String
  size : ℚ
  flags : Int
  color : Int
deriving Repr, DecidableEq

/-- One line of the structured text dictionary: a list of spans. -/
structure LineIn where
  spans : List SpanIn
deriving Repr, DecidableEq

/-- One block of the structured text dictionary.  `lines = none` models a
block without a `"lines"` key (an image block), which the source skips. -/
structure BlockIn where
  lines : Option (List LineIn)
deriving Repr, DecidableEq

/-- The structured text dictionary of a page. -/
structure PageDict where
  blocks : List BlockIn
deriving Repr, DecidableEq

/-- `PDFCanvas.extract_text_blocks` (app.py lines 84-109): walk blocks,
lines and spans of the page's text dictionary; for every span whose
stripped text is non-empty, record a block with the span's bounding box
(as origin plus width/height) and its font information. -/
def extract_text_blocks (d : PageDict) : List TextBlock :=
  d.blocks.flatMap fun b =>
    match b.lines with
    | none => []
    | some ls =>
        ls.flatMap fun line =>
          line.spans.filterMap fun sp =>
            let t := pyStrip sp.text
            if t = "" then none
            else
              some { text := t, x := sp.x0, y := sp.y0,
                     width := sp.x1 - sp.x0, height := sp.y1 - sp.y0,
                     font_info := { font := sp.font, size := sp.size,
                                    flags := sp.flags, color := sp.color } }

/-- One OCR token as delivered by `pytesseract.image_to_data` (parallel
arrays in the source, modelled as a record per index `i`).  `conf = -1`
models the sentinel entry the source maps to confidence `0`. -/
structure OcrData where
  text : String
  conf : Int
  left : Int
  top : Int
  width : Int
  height : Int
deriving Repr, DecidableEq

/-- One OCR-derived text region (`text_regions` entries in `PhotoEditor`). -/
structure OcrRegion where
  text : String
  x : Int
  y : Int
  width : Int
  height : Int
  confidence : Int
  font : String
  size : ℚ
  color : Int × Int × Int
deriving Repr, DecidableEq

/-- `PhotoEditor.extract_text_with_ocr` (app.py lines 251-278), the pure
token-to-region part: strip each token's text, map the `-1` confidence
sentinel to `0`, and keep tokens with non-empty text and confidence above
30, emitting a region with the token's box, font `"Arial"` (OCR reports no
font), estimated size `max(h * 0.75, 10)` and black color. -/
def extract_text_with_ocr (toks : List OcrData) : List OcrRegion :=
  toks.filterMap fun tk =>
    let text := pyStrip tk.text
    let conf : Int := if tk.conf = -1 then 0 else tk.conf
    if text ≠ "" ∧ 30 < conf then
      some { text := text, x := tk.left, y := tk.top,
             width := tk.width, height := tk.height, confidence := conf,
             font := "Arial", size := max ((tk.height : ℚ) * (3/4)) 10,
             color := ((0 : Int), (0 : Int), (0 : Int)) }
    else none

/-- Modelled from the spec (§4.1, photo/OCR path): emit a region for every
detected token with trimmed non-empty text and confidence above 30, with
bounds equal to the token box, size `max(0.75 * height, 10)`, a fixed
generic sans family and black color.  Written from the spec's words, to be
compared with `extract_text_with_ocr`. -/
def ocrRegionsSpec (toks : List OcrData) : List OcrRegion :=
  toks.filterMap fun tk =>
    if pyStrip tk.text ≠ "" ∧ 30 < tk.conf then
      some { text := pyStrip tk.text, x := tk.left, y := tk.top,
             width := tk.width, height := tk.height, confidence := tk.conf,
             font := "Arial", size := max ((3/4 : ℚ) * tk.height) 10,
             color := ((0 : Int), (0 : Int), (0 : Int)) }
    else none

/-- Inclusive-boundary containment test of `PhotoEditor.on_image_click`
(app.py lines 202-204). -/
def regionContains (r : OcrRegion) (px py : Int) : Bool :=
  decide (r.x ≤ px ∧ px ≤ r.x + r.width ∧ r.y ≤ py ∧ py ≤ r.y + r.height)

/-- The hit-test loop of `PhotoEditor.on_image_click` (app.py lines
195-208): the first region in extraction order containing the click, if
any (the `for ... break` loop). -/
def hitRegion (regions : List OcrRegion) (px py : Int) : Option OcrRegion :=
  regions.find? fun r => regionContains r px py

/-- Selection update performed by `PhotoEditor.on_image_click`: when a
region is hit it becomes the selection; otherwise the previous selection
is retained (the source assigns `selected_region` only inside the loop). -/
def on_image_click (regions : List OcrRegion) (selected : Option OcrRegion)
    (px py : Int) : Option OcrRegion :=
  match hitRegion regions px py with
  | some r => some r
  | none => selected

/-- Python list slice `h[:k]`, including the negative-index convention. -/
def pySliceTo {α : Type} (h : List α) (k : Int) : List α :=
  if k < 0 then h.take ((h.length : Int) + k).toNat else h.take k.toNat

/-- History commit of `MainWindow.save_state` (app.py lines 874-876):
`edit_history = edit_history[:history_index + 1]`, append the new
snapshot, `history_index = len(edit_history) - 1`. -/
def commitHist {α : Type} (h : List α) (idx : Int) (s : α) : List α × Int :=
  let h' := pySliceTo h (idx + 1) ++ [s]
  (h', (h'.length : Int) - 1)

/-- Pointer move of `MainWindow.undo` (app.py lines 878-882): decrement
only when the pointer is strictly past the first snapshot. -/
def undoPtr (idx : Int) : Int :=
  if 0 < idx then idx - 1 else idx

/-- Pointer move of `MainWindow.redo` (app.py lines 884-888): increment
only when the pointer is strictly before the last snapshot. -/
def redoPtr {α : Type} (h : List α) (idx : Int) : Int :=
  if idx < (h.length : Int) - 1 then idx + 1 else idx

/-- An axis-aligned rectangle `(x0, y0, x1, y1)`, as in `fitz.Rect`. -/
structure Rect4 where
  x0 : ℚ
  y0 : ℚ
  x1 : ℚ
  y1 : ℚ
deriving Repr, DecidableEq

/-- One piece of content of a PDF page: either a text span already present
in the document, or text later placed by `page.insert_text` (recorded with
exactly the arguments of the call: baseline point, text, font name, size
and normalized color). -/
inductive PdfItem where
  | span (sp : SpanIn)
  | inserted (px py : ℚ) (text : String) (fontname : String) (size : ℚ)
      (color : ℚ × ℚ × ℚ)
deriving Repr, DecidableEq

/-- A PDF page is its list of content items. -/
abbrev PdfPage := List PdfItem

/-- A PDF document is its list of pages (`len(pdf_doc)` pages). -/
abbrev PdfDoc := List PdfPage

/-- Modelled external engine metric: the box the engine reports for text of
`n` characters inserted at baseline `(px, py)` with font size `s`.  The
engine's glyph metrics are not observable from the source; the model uses
the same monospace heuristic the source itself uses for synthesized boxes
(`0.6 * size` per character, ascent `0.8 * size`, descent `0.4 * size`). -/
def insertedRect (px py : ℚ) (text : String) (size : ℚ) : Rect4 :=
  { x0 := px, y0 := py - size * (8/10),
    x1 := px + (text.length : ℚ) * size * (6/10), y1 := py + size * (4/10) }

/-- The rectangle a page item occupies: a span's recorded bounding box, or
the modelled engine box of inserted text. -/
def itemRect : PdfItem → Rect4
  | .span sp => { x0 := sp.x0, y0 := sp.y0, x1 := sp.x1, y1 := sp.y1 }
  | .inserted px py text _ size _ => insertedRect px py text size

/-- Overlap of two rectangles' interiors, used to model which content
`page.apply_redactions()` removes (the engine contract: content visible
inside the redaction rectangle is removed). -/
def rectsOverlap (a b : Rect4) : Bool :=
  decide (a.x0 < b.x1 ∧ b.x0 < a.x1 ∧ a.y0 < b.y1 ∧ b.y0 < a.y1)

/-- Modelled external engine: `page.get_text("dict")`.  Every content item
is reported as one block holding one line holding one span; spans already
in the document reproduce their recorded data, inserted text is reported
with the modelled metric box, its font name and size, flags `0` and a
color not tracked by the model (`0`; no modelled property reads it). -/
def pageGetTextDict (p : PdfPage) : PageDict :=
  { blocks := p.map fun it =>
      { lines := some [{ spans := [
          match it with
          | .span sp => sp
          | .inserted px py text fname size _ =>
              { text := text, x0 := px, y0 := py - size * (8/10),
                x1 := px + (text.length : ℚ) * size * (6/10),
                y1 := py + size * (4/10),
                font := fname, size := size, flags := 0, color := 0 } ] }] } }

/-- The re-location scan of `MainWindow.apply_pdf_edit` (app.py lines
728-732): the first currently extracted block whose `x` and `y` are both
within strictly 5 units of the stored selection coordinates. -/
def findOriginalBlock (blocks : List TextBlock) (x y : ℚ) : Option TextBlock :=
  blocks.find? fun b => decide (|b.x - x| < 5 ∧ |b.y - y| < 5)

/-- The erase rectangle of `MainWindow.apply_pdf_edit` (app.py lines
734-744): the matched block's bounding box, or the synthesized fallback
`(x, y, x + len(text) * size * 0.6, y + size * 1.2)`. -/
def eraseRect (blocks : List TextBlock) (x y : ℚ) (text : String)
    (size : ℚ) : Rect4 :=
  match findOriginalBlock blocks x y with
  | some b => { x0 := b.x, y0 := b.y, x1 := b.x + b.width, y1 := b.y + b.height }
  | none => { x0 := x, y0 := y,
              x1 := x + (text.length : ℚ) * size * (6/10),
              y1 := y + size * (12/10) }

/-- The arguments of the `page.insert_text` call actually performed. -/
structure InsertCall where
  px : ℚ
  py : ℚ
  text : String
  fontname : String
  size : ℚ
  color : ℚ × ℚ × ℚ
deriving Repr, DecidableEq

/-- The insertion step of `MainWindow.apply_pdf_edit` (app.py lines
750-770): insert at baseline `(x, y + size * 0.8)` with normalized color;
the `try/except` around `insert_text` retries with font name `"helv"` when
the engine rejects the requested family (`fontOk` models the engine's
font resolution). -/
def insertTextCall (fontOk : String → Bool) (x y : ℚ) (text fontName : String)
    (fontSize : ℚ) (c : Int × Int × Int) : InsertCall :=
  let py := y + fontSize * (8/10)
  let col : ℚ × ℚ × ℚ := ((c.1 : ℚ) / 255, (c.2.1 : ℚ) / 255, (c.2.2 : ℚ) / 255)
  if fontOk fontName then
    { px := x, py := py, text := text, fontname := fontName,
      size := fontSize, color := col }
  else
    { px := x, py := py, text := text, fontname := "helv",
      size := fontSize, color := col }

/-- The page mutation of `MainWindow.apply_pdf_edit` (app.py lines
734-770): redact the erase rectangle (removing the content it covers),
then insert the new text. -/
def editPage (fontOk : String → Bool) (blocks : List TextBlock) (x y : ℚ)
    (page : PdfPage) (text fontName : String) (fontSize : ℚ)
    (c : Int × Int × Int) : PdfPage :=
  let rect := eraseRect blocks x y text fontSize
  let redacted := page.filter fun it => !(rectsOverlap (itemRect it) rect)
  let call := insertTextCall fontOk x y text fontName fontSize c
  redacted ++ [PdfItem.inserted call.px call.py call.text call.fontname
    call.size call.color]

/-- The working photo image, modelled as the trace of PIL operations
applied to it: the loaded base image (with its pixel dimensions) or a
previous image with one text-overlay paint applied (`apply_photo_edit`'s
background patch plus text, recorded with its parameters). -/
inductive PhotoImage where
  | base (id : Nat) (w : Nat) (h : Nat)
  | painted (prev : PhotoImage) (x y : Int) (text : String)
      (fontname : String) (size : ℚ) (color : Int × Int × Int)
deriving Repr, DecidableEq

/-- Pixel width of a photo image (paints do not change it). -/
def imgWidth : PhotoImage → Nat
  | .base _ w _ => w
  | .painted prev _ _ _ _ _ _ => imgWidth prev

/-- Pixel height of a photo image. -/
def imgHeight : PhotoImage → Nat
  | .base _ _ h => h
  | .painted prev _ _ _ _ _ _ => imgHeight prev

/-- One history snapshot pushed by `MainWindow.save_state` (app.py lines
869-873): the page index being viewed and the serialized document
(`pdf_doc.tobytes()`; serialization round-trips through `fitz.open`, so it
is modelled by the document value itself). -/
structure Snapshot where
  page : Nat
  doc_data : PdfDoc
deriving Repr, DecidableEq

/-- The tab shown in the viewer panel (`tabs.currentIndex()`):
index 0 is the PDF viewer, index 1 the photo editor. -/
inductive Tab where
  | pdf
  | photo
deriving Repr, DecidableEq

/-- The mutable editing state of the application: the working document and
page (`PDFCanvas`), the extracted blocks shown on the canvas, the working
photo image, the stored selections, and the two history stores of
`MainWindow`. -/
structure Session where
  doc : Option PdfDoc
  current_page : Nat
  text_blocks : List TextBlock
  image : Option PhotoImage
  selected_position : Option (ℚ × ℚ)
  selected_photo_region : Option OcrRegion
  edit_history : List Snapshot
  history_index : Int
  photo_history : List PhotoImage
  current_tab : Tab
deriving Repr, DecidableEq

/-- `PDFCanvas.display_page` (app.py lines 53-82): with a loaded document
and a valid page index, set the current page and re-extract its text
blocks; otherwise do nothing. -/
def display_page (s : Session) (page_num : Nat) : Session :=
  match s.doc with
  | none => s
  | some d =>
      match d[page_num]? with
      | none => s
      | some page =>
          { s with current_page := page_num,
                   text_blocks := extract_text_blocks (pageGetTextDict page) }

/-- `MainWindow.save_state` (app.py lines 866-876): with a loaded PDF,
commit a snapshot of the current page index and serialized document to the
edit history; without one, do nothing. -/
def save_state (s : Session) : Session :=
  match s.doc with
  | none => s
  | some d =>
      let hi := commitHist s.edit_history s.history_index
        { page := s.current_page, doc_data := d }
      { s with edit_history := hi.1, history_index := hi.2 }

/-- `MainWindow.restore_state` (app.py lines 890-899): with the pointer in
range, a `"pdf"` snapshot and a loaded document, replace the document by
the snapshot's deserialized bytes and re-display the snapshot's page. -/
def restore_state (s : Session) : Session :=
  if 0 ≤ s.history_index ∧ s.history_index < (s.edit_history.length : Int) then
    match s.edit_history[s.history_index.toNat]? with
    | none => s
    | some st =>
        if s.doc.isSome then
          display_page { s with doc := some st.doc_data } st.page
        else s
  else s

/-- `MainWindow.undo` (app.py lines 878-882). -/
def undo (s : Session) : Session :=
  if 0 < s.history_index then
    restore_state { s with history_index := s.history_index - 1 }
  else s

/-- `MainWindow.redo` (app.py lines 884-888). -/
def redo (s : Session) : Session :=
  if s.history_index < (s.edit_history.length : Int) - 1 then
    restore_state { s with history_index := s.history_index + 1 }
  else s

/-- `MainWindow.apply_pdf_edit` (app.py lines 719-773): with a loaded
document and the stored selection coordinates, erase and re-insert on the
current page, then re-display it (re-extracting its text blocks). -/
def apply_pdf_edit (fontOk : String → Bool) (s : Session)
    (text fontName : String) (fontSize : ℚ) (c : Int × Int × Int) : Session :=
  match s.doc, s.selected_position with
  | some d, some xy =>
      match d[s.current_page]? with
      | none => s
      | some page =>
          let page' := editPage fontOk s.text_blocks xy.1 xy.2 page
            text fontName fontSize c
          display_page { s with doc := some (d.set s.current_page page') }
            s.current_page
  | _, _ => s

/-- `MainWindow.apply_photo_edit` (app.py lines 775-833): with a loaded
image, append a copy of it to the photo history, then paint the new text
(with its background patch) at the selected region's origin, or at the
image center without a selection.  Font-file probing is modelled by the
`photoFontOk` oracle (unresolved families fall back to PIL's built-in
default font). -/
def apply_photo_edit (photoFontOk : String → Bool) (s : Session)
    (text fontName : String) (fontSize : ℚ) (c : Int × Int × Int) : Session :=
  match s.image with
  | none => s
  | some img =>
      let fname := if photoFontOk fontName then fontName else "default"
      let pos : Int × Int :=
        match s.selected_photo_region with
        | some r => (r.x, r.y)
        | none => ((imgWidth img / 2 : Nat), (imgHeight img / 2 : Nat))
      let img' := PhotoImage.painted img pos.1 pos.2 text fname fontSize c
      { s with photo_history := s.photo_history ++ [img], image := some img' }

/-- `MainWindow.apply_text_changes` (app.py lines 688-717): return
unchanged on empty replacement text; otherwise push an undo snapshot, then
dispatch to the PDF edit (PDF tab with a stored selection) or to the photo
edit (photo tab; without a photo selection only an information dialog is
shown and the state stays as after `save_state`). -/
def apply_text_changes (fontOk photoFontOk : String → Bool) (s : Session)
    (newText fontName : String) (fontSize : ℚ) (c : Int × Int × Int) : Session :=
  if newText = "" then s
  else
    let s1 := save_state s
    if s1.current_tab = Tab.pdf ∧ s1.selected_position.isSome then
      apply_pdf_edit fontOk s1 newText fontName fontSize c
    else if s1.current_tab = Tab.photo then
      match s1.selected_photo_region with
      | some _ => apply_photo_edit photoFontOk s1 newText fontName fontSize c
      | none => s1
    else s1

/-! Concrete instances used to exercise the definitions. -/

/-- A one-span page: text `"Hello"` with bounding box `(100,100,150,120)`,
font `Arial` at size 12. -/
def helloSpan : SpanIn :=
  { text := "Hello", x0 := 100, y0 := 100, x1 := 150, y1 := 120,
    font := "Arial", size := 12, flags := 0, color := 0 }

/-- The block extraction yields for `helloSpan`. -/
def helloBlock : TextBlock :=
  { text := "Hello", x := 100, y := 100, width := 50, height := 20,
    font_info := { font := "Arial", size := 12, flags := 0, color := 0 } }

/-- A one-page document holding only `helloSpan`. -/
def c1doc : PdfDoc := [[PdfItem.span helloSpan]]

/-- The session after loading `c1doc` and selecting the `"Hello"` block at
its origin `(100, 100)`: empty history, pointer `-1`, PDF tab active. -/
def c1s : Session :=
  { doc := some c1doc, current_page := 0,
    text_blocks := extract_text_blocks (pageGetTextDict [PdfItem.span helloSpan]),
    image := none, selected_position := some (100, 100),
    selected_photo_region := none, edit_history := [], history_index := -1,
    photo_history := [], current_tab := Tab.pdf }

/-- The page after editing `c1doc` with text `"Goodbye"`, Arial 12, black:
the `"Hello"` span is redacted away and the new text is inserted at
baseline `(100, 100 + 12 * 0.8) = (100, 548/5)`. -/
def c1pageAfter : PdfPage :=
  [PdfItem.inserted 100 (548/5) "Goodbye" "Arial" 12 (0, 0, 0)]

/-- The block re-extraction yields for the inserted `"Goodbye"` text. -/
def goodbyeBlock : TextBlock :=
  { text := "Goodbye", x := 100, y := 100, width := 252/5, height := 72/5,
    font_info := { font := "Arial", size := 12, flags := 0, color := 0 } }

/-- The session state after the single `"Goodbye"` edit on `c1s`. -/
def c1after : Session :=
  { doc := some [c1pageAfter], current_page := 0,
    text_blocks := [goodbyeBlock],
    image := none, selected_position := some (100, 100),
    selected_photo_region := none,
    edit_history := [{ page := 0, doc_data := c1doc }], history_index := 0,
    photo_history := [], current_tab := Tab.pdf }

/-- A page dictionary with a single non-empty span of zero width
(degenerate bounding box `(0,0,0,10)`). -/
def c3dict : PageDict :=
  { blocks := [{ lines := some [{ spans := [
      { text := "a", x0 := 0, y0 := 0, x1 := 0, y1 := 10,
        font := "Arial", size := 12, flags := 0, color := 0 }] }] }] }

/-- The degenerate zero-width block extraction returns for `c3dict`. -/
def c3block : TextBlock :=
  { text := "a", x := 0, y := 0, width := 0, height := 10,
    font_info := { font := "Arial", size := 12, flags := 0, color := 0 } }

/-- A session with a PDF loaded, the photo tab active and no photo-side
selection. -/
def c5s : Session :=
  { doc := some c1doc, current_page := 0, text_blocks := [],
    image := some (.base 1 100 100), selected_position := none,
    selected_photo_region := none, edit_history := [], history_index := -1,
    photo_history := [], current_tab := Tab.photo }

/-- The session `c5s` after the aborted photo edit: only the edit history
and its pointer have changed (a snapshot was pushed by `save_state`). -/
def c5after : Session :=
  { doc := some c1doc, current_page := 0, text_blocks := [],
    image := some (.base 1 100 100), selected_position := none,
    selected_photo_region := none,
    edit_history := [{ page := 0, doc_data := c1doc }], history_index := 0,
    photo_history := [], current_tab := Tab.photo }

/-- OCR engine output with one confident token, one low-confidence token,
one whitespace token and one `-1` sentinel entry. -/
def c6toks : List OcrData :=
  [{ text := " hi ", conf := 95, left := 1, top := 2, width := 3, height := 4 },
   { text := "low", conf := 10, left := 5, top := 6, width := 7, height := 8 },
   { text := "   ", conf := 99, left := 9, top := 10, width := 11, height := 12 },
   { text := "neg", conf := -1, left := 13, top := 14, width := 15, height := 16 }]

/-- The single region `extract_text_with_ocr` keeps from `c6toks`. -/
def c6reg : OcrRegion :=
  { text := "hi", x := 1, y := 2, width := 3, height := 4, confidence := 95,
    font := "Arial", size := 10, color := (0, 0, 0) }

/-- A region covering `[0,10] × [0,10]`. -/
def c7r1 : OcrRegion :=
  { text := "a", x := 0, y := 0, width := 10, height := 10, confidence := 90,
    font := "Arial", size := 10, color := (0, 0, 0) }

/-- A region covering `[5,15] × [5,15]`, overlapping `c7r1`. -/
def c7r2 : OcrRegion :=
  { text := "b", x := 5, y := 5, width := 10, height := 10, confidence := 90,
    font := "Arial", size := 10, color := (0, 0, 0) }

/-! Helper lemmas. -/

/-- `List.find?` returns an element satisfying the predicate at some index
before which no element satisfies it. -/
theorem find?_first {α : Type} (p : α → Bool) :
    ∀ (l : List α) (a : α), l.find? p = some a →
      ∃ i : Nat, l[i]? = some a ∧ p a = true ∧
        ∀ j : Nat, j < i → ∀ b, l[j]? = some b → p b = false := by
  intro l
  induction l with
  | nil => intro a h; simp at h
  | cons x xs ih =>
      intro a h
      by_cases hx : p x = true
      · rw [List.find?_cons_of_pos _ hx] at h
        obtain rfl : x = a := by injection h
        exact ⟨0, by simp, hx, fun j hj => absurd hj (Nat.not_lt_zero j)⟩
      · rw [List.find?_cons_of_neg _ hx] at h
        obtain ⟨i, hi, hpa, hfirst⟩ := ih a h
        refine ⟨i + 1, by simpa using hi, hpa, ?_⟩
        intro j hj b hb
        match j with
        | 0 =>
            obtain rfl : x = b := by simpa using hb
            exact Bool.not_eq_true _ ▸ (by simpa using hx)
        | j' + 1 =>
            exact hfirst j' (by omega) b (by simpa using hb)

/-! Theorems about the claims. -/

/-- C4: calling `apply_text_changes` with an empty replacement text is a
no-op: the whole session state, in particular the document, the history
list and the history pointer, is returned unchanged. -/
theorem C4_empty_text_noop (fontOk photoFontOk : String → Bool) (s : Session)
    (fontName : String) (fontSize : ℚ) (c : Int × Int × Int) :
    apply_text_changes fontOk photoFontOk s "" fontName fontSize c = s := by
  simp [apply_text_changes]

/-- C2: for every history list and pointer position of the reachable form
(`-1 ≤ idx`), committing a snapshot truncates all snapshots strictly
beyond the pointer, appends the new snapshot, and leaves the pointer at
the last index; in particular, from `[s0,s1,s2]` with pointer `2`, an
`undo` followed by a commit of `s3` yields `[s0,s1,s3]` with pointer `2`,
after which `redo` is a no-op. -/
theorem C2_commit_truncates {α : Type} (h : List α) (idx : Int) (s : α)
    (hidx : -1 ≤ idx) (s0 s1 s2 s3 : α) :
    (commitHist h idx s).1 = h.take (idx + 1).toNat ++ [s]
    ∧ (commitHist h idx s).2 = ((commitHist h idx s).1.length : Int) - 1
    ∧ (commitHist [s0, s1, s2] (undoPtr 2) s3).1 = [s0, s1, s3]
    ∧ (commitHist [s0, s1, s2] (undoPtr 2) s3).2 = 2
    ∧ redoPtr [s0, s1, s3] ((commitHist [s0, s1, s2] (undoPtr 2) s3).2)
        = (commitHist [s0, s1, s2] (undoPtr 2) s3).2 := by
  have hk : ¬(idx + 1 < 0) := by omega
  have hundo : undoPtr 2 = 1 := by norm_num [undoPtr]
  have hslice : pySliceTo [s0, s1, s2] (2 : Int) = [s0, s1] := by
    simp [pySliceTo]
  refine ⟨by simp [commitHist, pySliceTo, hk], rfl, ?_, ?_, ?_⟩
  · simp [commitHist, hundo, hslice]
  · simp [commitHist, hundo, hslice]
  · simp [commitHist, hundo, hslice, redoPtr]

/-- Witness for C2 at concrete inputs. -/
theorem C2_commit_truncates_witness :
    (commitHist [10, 20, 30] (undoPtr 2) 40).1 = [10, 20, 40]
    ∧ (commitHist [10, 20, 30] (undoPtr 2) 40).2 = 2 :=
  ⟨(C2_commit_truncates [5] 0 6 (by norm_num) 10 20 30 40).2.2.1,
   (C2_commit_truncates [5] 0 6 (by norm_num) 10 20 30 40).2.2.2.1⟩

/-- C7: the hit test returns a region only when the click lies inside it
under inclusive-boundary axis-aligned containment; among several
containing regions the earliest in extraction order wins; and when no
region contains the click it returns nothing. -/
theorem C7_hit_test (regions : List OcrRegion) (px py : Int) :
    (∀ r, hitRegion regions px py = some r →
        regionContains r px py = true
        ∧ ∃ i : Nat, regions[i]? = some r ∧
            ∀ j : Nat, j < i → ∀ r', regions[j]? = some r' →
              regionContains r' px py = false)
    ∧ ((∀ r ∈ regions, regionContains r px py = false) →
        hitRegion regions px py = none) := by
  constructor
  · intro r hr
    obtain ⟨i, hi, hp, hfirst⟩ := find?_first _ regions r hr
    exact ⟨hp, i, hi, hfirst⟩
  · intro hall
    exact List.find?_eq_none.mpr fun r hr => by simp [hall r hr]

/-- Witness for C7: with two overlapping regions both containing `(5,5)`
the first one is returned and it contains the point; a click outside all
regions returns nothing. -/
theorem C7_hit_test_witness :
    regionContains c7r1 5 5 = true ∧ hitRegion [c7r1, c7r2] 99 99 = none :=
  ⟨((C7_hit_test [c7r1, c7r2] 5 5).1 c7r1 (by decide)).1,
   (C7_hit_test [c7r1, c7r2] 99 99).2 (by decide)⟩

/-- C8: the erase rectangle is the bounding box of the first currently
extracted block whose `x` and `y` both lie within the 5-unit tolerance of
the stored selection coordinates (the source's strict `abs < 5` test);
when no block matches, the erase rectangle is synthesized as
`(x, y, x + len(text) * size * 0.6, y + size * 1.2)`. -/
theorem C8_erase_rect (blocks : List TextBlock) (x y : ℚ) (text : String)
    (size : ℚ) :
    (∀ b, findOriginalBlock blocks x y = some b →
        (|b.x - x| < 5 ∧ |b.y - y| < 5)
        ∧ eraseRect blocks x y text size
            = { x0 := b.x, y0 := b.y, x1 := b.x + b.width, y1 := b.y + b.height }
        ∧ ∃ i : Nat, blocks[i]? = some b ∧
            ∀ j : Nat, j < i → ∀ b', blocks[j]? = some b' →
              ¬(|b'.x - x| < 5 ∧ |b'.y - y| < 5))
    ∧ ((∀ b ∈ blocks, ¬(|b.x - x| < 5 ∧ |b.y - y| < 5)) →
        eraseRect blocks x y text size
          = { x0 := x, y0 := y, x1 := x + (text.length : ℚ) * size * (6/10),
              y1 := y + size * (12/10) }) := by
  constructor
  · intro b hb
    obtain ⟨i, hi, hp, hfirst⟩ := find?_first _ blocks b hb
    refine ⟨of_decide_eq_true hp, by simp [eraseRect, hb], i, hi, ?_⟩
    intro j hj b' hb'
    have := hfirst j hj b' hb'
    simpa using this
  · intro hall
    have hnone : findOriginalBlock blocks x y = none :=
      List.find?_eq_none.mpr fun b hbm => by simp [hall b hbm]
    simp [eraseRect, hnone]

/-- Witness for C8: the selection `(100,100)` matches the `"Hello"` block
so its bounding box is the erase rectangle; with no blocks at all the
synthesized fallback rectangle is produced. -/
theorem C8_erase_rect_witness :
    eraseRect [helloBlock] 100 100 "Goodbye" 12
      = { x0 := 100, y0 := 100, x1 := 150, y1 := 120 }
    ∧ eraseRect [] 7 8 "ab" 10
      = { x0 := 7, y0 := 8, x1 := 19, y1 := 20 } := by
  constructor
  · have hfind : findOriginalBlock [helloBlock] 100 100 = some helloBlock := by
      norm_num [findOriginalBlock, List.find?, helloBlock]
    have h := ((C8_erase_rect [helloBlock] 100 100 "Goodbye" 12).1
      helloBlock hfind).2.1
    rw [h]; norm_num [helloBlock]
  · have h := (C8_erase_rect [] 7 8 "ab" 10).2 (by simp)
    rw [h]; norm_num [show ("ab" : String).length = 2 from rfl]

/-- C9: the new text is inserted at baseline `(x, y + size * 0.8)`; when
the engine rejects the requested family the insertion is performed with
the built-in `"helv"` family at the same point, size and color, and the
edit result is identical to the result of a successful insertion of that
default family — the substitution is not reported. -/
theorem C9_font_fallback (fontOk : String → Bool) (x y : ℚ)
    (text fontName : String) (fontSize : ℚ) (c : Int × Int × Int) :
    (insertTextCall fontOk x y text fontName fontSize c).px = x
    ∧ (insertTextCall fontOk x y text fontName fontSize c).py
        = y + fontSize * (8/10)
    ∧ (insertTextCall fontOk x y text fontName fontSize c).size = fontSize
    ∧ (insertTextCall fontOk x y text fontName fontSize c).color
        = ((c.1 : ℚ) / 255, (c.2.1 : ℚ) / 255, (c.2.2 : ℚ) / 255)
    ∧ (fontOk fontName = true →
        (insertTextCall fontOk x y text fontName fontSize c).fontname = fontName)
    ∧ (fontOk fontName = false →
        (insertTextCall fontOk x y text fontName fontSize c).fontname = "helv")
    ∧ (fontOk fontName = false →
        ∀ (blocks : List TextBlock) (page : PdfPage),
          editPage fontOk blocks x y page text fontName fontSize c
            = editPage (fun _ => true) blocks x y page text "helv" fontSize c) := by
  refine ⟨?_, ?_, ?_, ?_, ?_, ?_, ?_⟩
  · by_cases hf : fontOk fontName <;> simp [insertTextCall, hf]
  · by_cases hf : fontOk fontName <;> simp [insertTextCall, hf]
  · by_cases hf : fontOk fontName <;> simp [insertTextCall, hf]
  · by_cases hf : fontOk fontName <;> simp [insertTextCall, hf]
  · intro hf; simp [insertTextCall, hf]
  · intro hf; simp [insertTextCall, hf]
  · intro hf blocks page
    simp [editPage, insertTextCall, hf]

/-- Witness for C9: a font oracle accepting only `"Arial"` makes the
insertion of `"Nope"` fall back to `"helv"` with the baseline preserved,
and the edit result equals a successful `"helv"` edit. -/
theorem C9_font_fallback_witness :
    (insertTextCall (fun f => f == "Arial") 0 0 "t" "Nope" 12 (0, 0, 0)).fontname
      = "helv"
    ∧ (insertTextCall (fun f => f == "Arial") 0 0 "t" "Nope" 12 (0, 0, 0)).py
        = 0 + 12 * (8/10)
    ∧ editPage (fun f => f == "Arial") [] 0 0 [] "t" "Nope" 12 (0, 0, 0)
        = editPage (fun _ => true) [] 0 0 [] "t" "helv" 12 (0, 0, 0) :=
  ⟨(C9_font_fallback (fun f => f == "Arial") 0 0 "t" "Nope" 12
      (0, 0, 0)).2.2.2.2.2.1 (by decide),
   (C9_font_fallback (fun f => f == "Arial") 0 0 "t" "Nope" 12 (0, 0, 0)).2.1,
   (C9_font_fallback (fun f => f == "Arial") 0 0 "t" "Nope" 12
      (0, 0, 0)).2.2.2.2.2.2 (by decide) [] []⟩

/-- Every region kept by the OCR extraction has confidence above 30 and
non-empty text (shared helper for the OCR-path properties). -/
theorem ocr_filter_mem {toks : List OcrData} {r : OcrRegion}
    (hr : r ∈ extract_text_with_ocr toks) : 30 < r.confidence ∧ r.text ≠ "" := by
  simp only [extract_text_with_ocr] at hr
  obtain ⟨tk, _, hf⟩ := List.mem_filterMap.mp hr
  by_cases hcond : pyStrip tk.text ≠ ""
      ∧ 30 < (if tk.conf = -1 then 0 else tk.conf)
  · rw [if_pos hcond] at hf
    obtain rfl : _ = r := by injection hf
    exact ⟨hcond.2, hcond.1⟩
  · rw [if_neg hcond] at hf
    cases hf

/-- C6: the OCR extraction returns exactly the regions the specification
describes (trimmed non-empty text, confidence strictly above 30 on the
0-100 scale, bounds equal to the token box, size `max(0.75 * h, 10)`,
fixed `"Arial"` family, black color), and every returned region has
confidence above 30 and non-empty text. -/
theorem C6_ocr_filter (toks : List OcrData) :
    extract_text_with_ocr toks = ocrRegionsSpec toks
    ∧ ∀ r ∈ extract_text_with_ocr toks, 30 < r.confidence ∧ r.text ≠ "" := by
  refine ⟨?_, fun r hr => ocr_filter_mem hr⟩
  simp only [extract_text_with_ocr, ocrRegionsSpec]
  refine congrFun (congrArg List.filterMap (funext fun tk => ?_)) toks
  by_cases hc : tk.conf = -1
  · simp [hc]
  · by_cases ht : pyStrip tk.text ≠ "" ∧ 30 < tk.conf
    · simp [hc, ht, mul_comm]
    · simp [hc, ht]

/-- Witness for C6 on `c6toks`: only the confident non-blank token
survives, and the resulting region has confidence above 30. -/
theorem C6_ocr_filter_witness :
    extract_text_with_ocr c6toks = ocrRegionsSpec c6toks
    ∧ (30 < c6reg.confidence ∧ c6reg.text ≠ "") := by
  have e1 : pyStrip " hi " = "hi" := by decide
  have e2 : pyStrip "low" = "low" := by decide
  have e3 : pyStrip "   " = "" := by decide
  have e4 : pyStrip "neg" = "neg" := by decide
  have hev : extract_text_with_ocr c6toks = [c6reg] := by
    simp +decide [extract_text_with_ocr, c6toks, List.filterMap, e1, e2, e3, e4]
    norm_num [c6reg, max_def]
  exact ⟨(C6_ocr_filter c6toks).1,
    (C6_ocr_filter c6toks).2 c6reg (by rw [hev]; exact List.mem_singleton.mpr rfl)⟩

/-- C3 (amended): every region returned by either extraction path has
non-empty text; the bounds are taken from the source box unchecked, so the
width/height positivity the claim states is not enforced. -/
theorem C3_extraction_text_nonempty :
    (∀ (d : PageDict), ∀ b ∈ extract_text_blocks d, b.text ≠ "")
    ∧ (∀ (toks : List OcrData), ∀ r ∈ extract_text_with_ocr toks,
        r.text ≠ "") := by
  constructor
  · intro d b hb
    simp only [extract_text_blocks, List.mem_flatMap] at hb
    obtain ⟨blk, _, hb⟩ := hb
    cases hl : blk.lines with
    | none => rw [hl] at hb; cases hb
    | some ls =>
        rw [hl] at hb
        simp only [List.mem_flatMap] at hb
        obtain ⟨line, _, hb⟩ := hb
        obtain ⟨sp, _, hf⟩ := List.mem_filterMap.mp hb
        by_cases ht : pyStrip sp.text = ""
        · rw [if_pos ht] at hf; cases hf
        · rw [if_neg ht] at hf
          obtain rfl : _ = b := by injection hf
          exact ht
  · exact fun toks r hr => (ocr_filter_mem hr).2

/-- Witness for C3's amended statement at a concrete page dictionary and
concrete OCR output. -/
theorem C3_extraction_text_nonempty_witness :
    (∀ b ∈ extract_text_blocks c3dict, b.text ≠ "")
    ∧ (∀ r ∈ extract_text_with_ocr c6toks, r.text ≠ "") :=
  ⟨fun b hb => C3_extraction_text_nonempty.1 c3dict b hb,
   fun r hr => C3_extraction_text_nonempty.2 c6toks r hr⟩

/-- Counterexample for C3 as stated: the page dictionary `c3dict` holds a
non-empty span with a zero-width bounding box, and extraction returns it
unfiltered, so the claimed `width > 0` invariant fails. -/
theorem C3_zero_width_cex :
    extract_text_blocks c3dict = [c3block]
    ∧ ¬(∀ b ∈ extract_text_blocks c3dict,
          0 < b.width ∧ 0 < b.height ∧ b.text ≠ "") := by
  have hev : extract_text_blocks c3dict = [c3block] := by
    simp +decide [extract_text_blocks, c3dict, c3block, List.filterMap]
  refine ⟨hev, fun hall => ?_⟩
  have hmem : c3block ∈ extract_text_blocks c3dict := by
    rw [hev]; exact List.mem_singleton.mpr rfl
  have h0 := (hall c3block hmem).1
  rw [show c3block.width = 0 from rfl] at h0
  exact absurd h0 (by norm_num)

/-- `save_state` only touches the edit history and its pointer. -/
theorem save_state_fields (s : Session) :
    (save_state s).current_tab = s.current_tab
    ∧ (save_state s).selected_photo_region = s.selected_photo_region
    ∧ (save_state s).image = s.image
    ∧ (save_state s).doc = s.doc
    ∧ (save_state s).photo_history = s.photo_history
    ∧ (save_state s).current_page = s.current_page
    ∧ (save_state s).text_blocks = s.text_blocks
    ∧ (save_state s).selected_position = s.selected_position := by
  cases hd : s.doc <;> simp [save_state, hd]

/-- `display_page` only touches the current page and the extracted text
blocks. -/
theorem display_page_fields (s : Session) (n : Nat) :
    (display_page s n).doc = s.doc
    ∧ (display_page s n).edit_history = s.edit_history
    ∧ (display_page s n).history_index = s.history_index
    ∧ (display_page s n).image = s.image
    ∧ (display_page s n).photo_history = s.photo_history := by
  rw [display_page]
  cases hd : s.doc with
  | none => simp [hd]
  | some d =>
      cases hp : d[n]? with
      | none => simp [hd, hp]
      | some page => simp [hd, hp]

/-- When the guard conditions of `apply_pdf_edit` hold, the edit replaces
the current page by the edited page and re-displays it. -/
theorem apply_pdf_edit_eq (fontOk : String → Bool) (s : Session)
    (d : PdfDoc) (page : PdfPage) (xy : ℚ × ℚ)
    (hd : s.doc = some d) (hp : s.selected_position = some xy)
    (hpg : d[s.current_page]? = some page)
    (text fontName : String) (fontSize : ℚ) (c : Int × Int × Int) :
    apply_pdf_edit fontOk s text fontName fontSize c
      = display_page
          { s with doc := some (d.set s.current_page
              (editPage fontOk s.text_blocks xy.1 xy.2 page
                text fontName fontSize c)) }
          s.current_page := by
  rw [apply_pdf_edit, hd, hp]
  dsimp only
  rw [hpg]

/-- C5 (amended): requesting an edit on the photo backend with no active
photo-side selection changes neither the working image, nor the working
PDF document, nor the photo history; with no PDF loaded the whole session
is unchanged, but with a PDF loaded the `save_state` call that precedes
the selection check has already pushed a pre-edit snapshot, so the edit
history gains one entry and the pointer moves to it. -/
theorem C5_photo_no_selection (fontOk photoFontOk : String → Bool)
    (s : Session) (newText fontName : String) (fontSize : ℚ)
    (c : Int × Int × Int) (h1 : newText ≠ "") (h2 : s.current_tab = Tab.photo)
    (h3 : s.selected_photo_region = none) :
    (apply_text_changes fontOk photoFontOk s newText fontName fontSize c).image
      = s.image
    ∧ (apply_text_changes fontOk photoFontOk s newText fontName fontSize c).doc
        = s.doc
    ∧ (apply_text_changes fontOk photoFontOk s newText fontName
        fontSize c).photo_history = s.photo_history
    ∧ (s.doc = none →
        apply_text_changes fontOk photoFontOk s newText fontName fontSize c = s)
    ∧ (∀ d, s.doc = some d →
        (apply_text_changes fontOk photoFontOk s newText fontName
            fontSize c).edit_history
          = pySliceTo s.edit_history (s.history_index + 1)
            ++ [{ page := s.current_page, doc_data := d }]
        ∧ (apply_text_changes fontOk photoFontOk s newText fontName
            fontSize c).history_index
          = ((apply_text_changes fontOk photoFontOk s newText fontName
              fontSize c).edit_history.length : Int) - 1) := by
  obtain ⟨ftab, freg, fimg, fdoc, fph, -, -, -⟩ := save_state_fields s
  have key : apply_text_changes fontOk photoFontOk s newText fontName fontSize c
      = save_state s := by
    rw [apply_text_changes, if_neg h1]
    have hc1 : ¬((save_state s).current_tab = Tab.pdf
        ∧ (save_state s).selected_position.isSome) := by
      rw [ftab, h2]; rintro ⟨hx, -⟩; cases hx
    rw [if_neg hc1]
    have hc2 : (save_state s).current_tab = Tab.photo := by rw [ftab, h2]
    rw [if_pos hc2]
    have hr : (save_state s).selected_photo_region = none := by rw [freg, h3]
    rw [hr]
  refine ⟨by rw [key, fimg], by rw [key, fdoc], by rw [key, fph], ?_, ?_⟩
  · intro hnone
    rw [key, save_state, hnone]
  · intro d hd
    rw [key, save_state, hd]
    constructor
    · simp [commitHist]
    · simp [commitHist]

/-- Witness for C5's amended statement: on `c5s` (PDF loaded, photo tab,
no selection) the image stays, yet one snapshot is pushed and the pointer
moves to it (the last index). -/
theorem C5_photo_no_selection_witness :
    (apply_text_changes (fun _ => true) (fun _ => true) c5s "Hi" "Arial" 12
      (0, 0, 0)).image = c5s.image
    ∧ (apply_text_changes (fun _ => true) (fun _ => true) c5s "Hi" "Arial" 12
        (0, 0, 0)).edit_history
      = pySliceTo c5s.edit_history (c5s.history_index + 1)
        ++ [{ page := c5s.current_page, doc_data := c1doc }]
    ∧ (apply_text_changes (fun _ => true) (fun _ => true) c5s "Hi" "Arial" 12
        (0, 0, 0)).history_index
      = ((apply_text_changes (fun _ => true) (fun _ => true) c5s "Hi" "Arial"
          12 (0, 0, 0)).edit_history.length : Int) - 1 := by
  have h := C5_photo_no_selection (fun _ => true) (fun _ => true) c5s "Hi"
    "Arial" 12 (0, 0, 0) (by decide) rfl rfl
  exact ⟨h.1, (h.2.2.2.2 c1doc rfl).1, (h.2.2.2.2 c1doc rfl).2⟩

/-- Counterexample for C5 as stated: on `c5s` the photo edit with no
selection is aborted and the image and document are untouched, but the
history stack does change — a snapshot is pushed because `save_state`
runs before the selection check. -/
theorem C5_history_pushed_cex :
    (apply_text_changes (fun _ => true) (fun _ => true) c5s "Hi" "Arial" 12
      (0, 0, 0)).edit_history.length = 1
    ∧ c5s.edit_history.length = 0
    ∧ (apply_text_changes (fun _ => true) (fun _ => true) c5s "Hi" "Arial" 12
        (0, 0, 0)).image = c5s.image
    ∧ (apply_text_changes (fun _ => true) (fun _ => true) c5s "Hi" "Arial" 12
        (0, 0, 0)).doc = c5s.doc
    ∧ (apply_text_changes (fun _ => true) (fun _ => true) c5s "Hi" "Arial" 12
        (0, 0, 0)).history_index = 0
    ∧ c5s.history_index = -1 := by
  have key : apply_text_changes (fun _ => true) (fun _ => true) c5s "Hi"
      "Arial" 12 (0, 0, 0) = c5after := by
    norm_num +decide [apply_text_changes, save_state, commitHist, pySliceTo,
      c5s, c5after]
  rw [key]
  exact ⟨rfl, rfl, rfl, rfl, rfl, rfl⟩

/-- C10: a replacement text that is non-empty but whitespace-only is not
treated as empty — the guard tests the raw untrimmed string, so on the
PDF path the edit is committed: a pre-edit snapshot is pushed onto the
history and the redaction/insertion pipeline runs on the current page. -/
theorem C10_whitespace_committed (fontOk photoFontOk : String → Bool)
    (s : Session) (newText fontName : String) (fontSize : ℚ)
    (c : Int × Int × Int) (d : PdfDoc) (page : PdfPage) (xy : ℚ × ℚ)
    (h1 : newText ≠ "") (h2 : pyStrip newText = "")
    (h3 : s.doc = some d) (h4 : s.current_tab = Tab.pdf)
    (h5 : s.selected_position = some xy)
    (h6 : d[s.current_page]? = some page) :
    (apply_text_changes fontOk photoFontOk s newText fontName
        fontSize c).edit_history
      = pySliceTo s.edit_history (s.history_index + 1)
        ++ [{ page := s.current_page, doc_data := d }]
    ∧ (apply_text_changes fontOk photoFontOk s newText fontName
        fontSize c).history_index
      = ((apply_text_changes fontOk photoFontOk s newText fontName
          fontSize c).edit_history.length : Int) - 1
    ∧ (apply_text_changes fontOk photoFontOk s newText fontName
        fontSize c).doc
      = some (d.set s.current_page (editPage fontOk s.text_blocks xy.1 xy.2
          page newText fontName fontSize c)) := by
  obtain ⟨ftab, -, -, fdoc, -, fpage, fblocks, fpos⟩ := save_state_fields s
  have hc1 : (save_state s).current_tab = Tab.pdf
      ∧ (save_state s).selected_position.isSome := by
    refine ⟨by rw [ftab, h4], ?_⟩
    rw [fpos, h5]; rfl
  have hd' : (save_state s).doc = some d := by rw [fdoc, h3]
  have hp' : (save_state s).selected_position = some xy := by rw [fpos, h5]
  have hpg' : d[(save_state s).current_page]? = some page := by
    rw [fpage]; exact h6
  have key : apply_text_changes fontOk photoFontOk s newText fontName fontSize c
      = display_page
          { save_state s with doc := some (d.set (save_state s).current_page
              (editPage fontOk (save_state s).text_blocks xy.1 xy.2 page
                newText fontName fontSize c)) }
          (save_state s).current_page := by
    rw [apply_text_changes, if_neg h1, if_pos hc1]
    exact apply_pdf_edit_eq fontOk (save_state s) d page xy hd' hp' hpg'
      newText fontName fontSize c
  obtain ⟨gdoc, ghist, gidx, -, -⟩ := display_page_fields
    { save_state s with doc := some (d.set (save_state s).current_page
        (editPage fontOk (save_state s).text_blocks xy.1 xy.2 page
          newText fontName fontSize c)) } (save_state s).current_page
  have hhist : (save_state s).edit_history
      = pySliceTo s.edit_history (s.history_index + 1)
        ++ [{ page := s.current_page, doc_data := d }] := by
    rw [save_state, h3]
    simp [commitHist]
  have hidx2 : (save_state s).history_index
      = (((save_state s).edit_history.length : Int)) - 1 := by
    rw [save_state, h3]
    simp [commitHist]
  refine ⟨?_, ?_, ?_⟩
  · rw [key]
    exact ghist.trans hhist
  · rw [key, ghist, gidx]
    exact hidx2
  · rw [key, gdoc]
    show some (d.set (save_state s).current_page
        (editPage fontOk (save_state s).text_blocks xy.1 xy.2 page
          newText fontName fontSize c)) = _
    rw [fpage, fblocks]

/-- Witness for C10: on the loaded session `c1s`, the single-space text
`" "` is committed — a snapshot of the pre-edit document is pushed and
the document is replaced by the edited page. -/
theorem C10_whitespace_committed_witness :
    (apply_text_changes (fun _ => true) (fun _ => true) c1s " " "Arial" 12
      (0, 0, 0)).edit_history
      = pySliceTo c1s.edit_history (c1s.history_index + 1)
        ++ [{ page := c1s.current_page, doc_data := c1doc }]
    ∧ (apply_text_changes (fun _ => true) (fun _ => true) c1s " " "Arial" 12
        (0, 0, 0)).doc
      = some (c1doc.set c1s.current_page (editPage (fun _ => true)
          c1s.text_blocks 100 100 [PdfItem.span helloSpan] " " "Arial" 12
          (0, 0, 0))) := by
  have h := C10_whitespace_committed (fun _ => true) (fun _ => true) c1s " "
    "Arial" 12 (0, 0, 0) c1doc [PdfItem.span helloSpan] (100, 100)
    (by decide) (by decide) rfl rfl rfl rfl
  exact ⟨h.1, h.2.2⟩

/-- Extraction of the one-span `"Hello"` page. -/
theorem c1_blocks_eval :
    extract_text_blocks (pageGetTextDict [PdfItem.span helloSpan])
      = [helloBlock] := by
  have e1 : pyStrip "Hello" = "Hello" := by decide
  simp +decide [extract_text_blocks, pageGetTextDict, List.filterMap,
    helloSpan, helloBlock, e1]
  norm_num

/-- Full evaluation of the single `"Goodbye"` edit on the freshly loaded
session `c1s`. -/
theorem c1_edit_eval :
    apply_text_changes (fun _ => true) (fun _ => true) c1s "Goodbye" "Arial"
      12 (0, 0, 0) = c1after := by
  have e1 : pyStrip "Goodbye" = "Goodbye" := by decide
  have e2 : ("Goodbye" : String).length = 7 := rfl
  norm_num +decide [apply_text_changes, save_state, commitHist, pySliceTo,
    apply_pdf_edit, display_page, editPage, eraseRect, findOriginalBlock,
    insertTextCall, rectsOverlap, itemRect, insertedRect, extract_text_blocks,
    pageGetTextDict, List.filterMap, List.find?, List.filter, c1s, c1doc,
    helloSpan, c1after, c1pageAfter, goodbyeBlock, helloBlock, e1, e2]

/-- C1 (failing-input evaluation): after loading the one-span `"Hello"`
document and committing exactly one edit (which pushes exactly one
pre-edit snapshot, at index 0), `undo()` is a no-op — the guard
`history_index > 0` fails — so the document is NOT restored: it is still
the edited one, and its re-extracted blocks (the session's `text_blocks`)
no longer contain `"Hello"`, while the pre-edit extraction had `"Hello"`
at `(100, 100, 50, 20)`.  This contradicts the claim that `undo()`
restores the pre-edit state after a single edit. -/
theorem C1_undo_noop_after_first_edit :
    (apply_text_changes (fun _ => true) (fun _ => true) c1s "Goodbye" "Arial"
        12 (0, 0, 0)).edit_history = [{ page := 0, doc_data := c1doc }]
    ∧ (apply_text_changes (fun _ => true) (fun _ => true) c1s "Goodbye"
        "Arial" 12 (0, 0, 0)).history_index = 0
    ∧ undo (apply_text_changes (fun _ => true) (fun _ => true) c1s "Goodbye"
        "Arial" 12 (0, 0, 0))
      = apply_text_changes (fun _ => true) (fun _ => true) c1s "Goodbye"
          "Arial" 12 (0, 0, 0)
    ∧ (undo (apply_text_changes (fun _ => true) (fun _ => true) c1s "Goodbye"
        "Arial" 12 (0, 0, 0))).doc ≠ some c1doc
    ∧ (∀ b ∈ (undo (apply_text_changes (fun _ => true) (fun _ => true) c1s
        "Goodbye" "Arial" 12 (0, 0, 0))).text_blocks, b.text ≠ "Hello")
    ∧ (∃ b ∈ c1s.text_blocks, b.text = "Hello" ∧ b.x = 100 ∧ b.y = 100
        ∧ b.width = 50 ∧ b.height = 20) := by
  have hu : undo c1after = c1after := by
    rw [undo]
    norm_num [c1after]
  rw [c1_edit_eval, hu]
  refine ⟨rfl, rfl, rfl, ?_, ?_, ?_⟩
  · simp [c1after, c1doc, c1pageAfter, helloSpan]
  · intro b hb
    simp only [c1after, List.mem_singleton] at hb
    rw [hb]
    decide
  · have hb : c1s.text_blocks = [helloBlock] := c1_blocks_eval
    rw [hb]
    exact ⟨helloBlock, by simp, rfl, rfl, rfl, rfl, rfl⟩

end PdfEditor

